import Mathlib

/-!
A shallow embedding of the rag-cli document indexing and retrieval-augmented
query pipeline (src/main.py, src/rag/indexer.py, src/rag/chain.py,
src/rag/config.py).  The external collaborators — the embedding service, the
language model, the FAISS vector index, the langchain text splitter, the
per-format document loaders and the wall clock — are modelled as parameters;
the repository's own orchestration logic is translated line by line.
-/

namespace RagCli

/-- Lexicographic comparison of character lists by code point, modelling the
string comparison used by Python's built-in sorted. -/
def charListLe : List Char → List Char → Bool
  | [], _ => true
  | _ :: _, [] => false
  | a :: as, b :: bs => if a = b then charListLe as bs else decide (a < b)

/-- Lexicographic order on strings by code point. -/
def strLe (a b : String) : Bool := charListLe a.toList b.toList

/-- Insert a string into an already sorted list of strings. -/
def insertStr (x : String) : List String → List String
  | [] => [x]
  | y :: ys => if strLe x y then x :: y :: ys else y :: insertStr x ys

/-- Insertion sort on strings; models Python sorted applied to strings. -/
def sortStrings : List String → List String
  | [] => []
  | x :: xs => insertStr x (sortStrings xs)

/-- Distinct elements of a list of strings; models collecting into a Python
set.  The order produced here is irrelevant because the indexer always sorts
the result afterwards. -/
def distinctStr : List String → List String
  | [] => []
  | x :: xs => let r := distinctStr xs; if r.contains x then r else x :: r

/-- Characters of the final path component, accumulating and restarting at
each slash. -/
def afterLastSlash (acc : List Char) : List Char → List Char
  | [] => acc.reverse
  | c :: cs => if c = '/' then afterLastSlash [] cs else afterLastSlash (c :: acc) cs

/-- Final component of a POSIX path, modelling pathlib Path(...).name. -/
def basename (s : String) : String := String.mk (afterLastSlash [] s.toList)

/-- Lower-casing of a string, modelling Python str.lower on ASCII input. -/
def lowerStr (s : String) : String := String.mk (s.toList.map Char.toLower)

/-- Position of the last dot in a character list, if any. -/
def lastDotPos (cs : List Char) : Option Nat :=
  (List.range cs.length).foldl
    (fun acc i => if cs.getD i ' ' = '.' then some i else acc) none

/-- Extension of the final path component, modelling pathlib Path(...).suffix:
the part of the name from its last dot onward, unless that dot is the first
or the last character of the name. -/
def suffixOf (p : String) : String :=
  let cs := (basename p).toList
  match lastDotPos cs with
  | some i => if 0 < i && i + 1 < cs.length then String.mk (cs.drop i) else ""
  | none => ""

/-- A raw document segment produced by a loader: the source metadata entry
(set by the loader, absent only in defensive corner cases) and the text
(src/rag/indexer.py, langchain Document). -/
structure Doc where
  source : Option String
  text : String
  deriving DecidableEq, Repr

/-- An input file as seen by the loaders: its extension, and the segments the
matching external loader would produce — none models a loader exception
(src/rag/indexer.py lines 23-39). -/
structure SrcFile where
  suffix : String
  loadResult : Option (List Doc)
  deriving DecidableEq, Repr

/-- Metadata record persisted as meta.json (src/rag/indexer.py lines 98-105). -/
structure Meta where
  chunks : Nat
  sources : List String
  updated : String
  deriving DecidableEq, Repr

/-- On-disk state of one collection directory: the vectors stored in the FAISS
index (one per chunk ever added) and the meta.json record, if written. -/
structure Collection where
  docs : List Doc
  meta : Option Meta
  deriving DecidableEq, Repr

/-- The persistent store rooted at config.INDEX_DIR: whether the root
directory exists, and one entry per collection subdirectory. -/
structure FS where
  indexDirExists : Bool
  collections : List (String × Collection)
  deriving DecidableEq, Repr

/-- The state in which nothing has ever been indexed. -/
def FS.empty : FS := ⟨false, []⟩

/-- Association-list lookup for a named collection directory. -/
def assocFind (c : String) : List (String × Collection) → Option Collection
  | [] => none
  | (k, v) :: rest => if k = c then some v else assocFind c rest

/-- Directory lookup for a collection name. -/
def FS.lookupCol (st : FS) (c : String) : Option Collection :=
  assocFind c st.collections

/-- Saving a collection directory: creates the root (mkdir parents) and
overwrites any previous directory of the same name. -/
def FS.setCollection (st : FS) (c : String) (col : Collection) : FS :=
  ⟨true, (c, col) :: st.collections.filter (fun p => p.1 != c)⟩

/-- The persisted meta.json of a collection, if present. -/
def FS.metaOf (st : FS) (c : String) : Option Meta :=
  (st.lookupCol c).bind (fun col => col.meta)

/-- The sources field of a collection's persisted metadata (empty when no
metadata is present). -/
def FS.metaSources (st : FS) (c : String) : List String :=
  ((st.metaOf c).map Meta.sources).getD []

/-- The chunks field of a collection's persisted metadata. -/
def FS.metaChunks (st : FS) (c : String) : Option Nat :=
  (st.metaOf c).map Meta.chunks

/-- Number of vectors already stored for a collection (0 when absent),
modelling the FAISS index ntotal before an update. -/
def FS.prevCount (st : FS) (c : String) : Nat :=
  ((st.lookupCol c).map (fun col => col.docs.length)).getD 0

/-- Process-wide configuration (src/rag/config.py). -/
structure Cfg where
  embedModel : String
  llmModel : String
  collection : String
  outputDir : String
  topK : Nat
  chunkSize : Nat
  chunkOverlap : Nat
  deriving DecidableEq, Repr

/-- Default configuration values (src/rag/config.py, no environment
overrides). -/
def defaultCfg : Cfg :=
  { embedModel := "nomic-embed-text"
    llmModel := "llama3.2"
    collection := "default"
    outputDir := "./output"
    topK := 5
    chunkSize := 1000
    chunkOverlap := 200 }

/-- Extensions with a registered loader (src/rag/indexer.py lines 15-20). -/
def LOADERS : List String := [".pdf", ".txt", ".md", ".docx"]

/-- Loading of one file (src/rag/indexer.py lines 23-39): unsupported
extensions are skipped, loader exceptions are caught and yield no segments. -/
def _load_file (f : SrcFile) : List Doc :=
  if LOADERS.contains (lowerStr f.suffix) then
    match f.loadResult with
    | some docs => docs
    | none => []
  else []

/-- Loading of a directory (src/rag/indexer.py lines 42-52): keep the files
whose extension has a loader, return nothing when there are none, otherwise
accumulate each file's segments. -/
def load_documents (files : List SrcFile) : List Doc :=
  let fs := files.filter (fun f => LOADERS.contains (lowerStr f.suffix))
  if fs.isEmpty then [] else (fs.map _load_file).flatten

/-- The index operation (src/rag/indexer.py lines 55-112).  The langchain
splitter is the parameter split; the embedding service is assumed available
(its failure would abort before any write).  Returns the updated store and
the operation's return value, the number of chunks produced by this call. -/
def indexOp (cfg : Cfg) (st : FS) (collection : Option String)
    (files : List SrcFile) (split : List Doc → List Doc) (now : String) :
    FS × Nat :=
  let c := collection.getD cfg.collection
  let docs := load_documents files
  if docs.isEmpty then (st, 0)
  else
    let chunks := split docs
    let newDocs :=
      match st.lookupCol c with
      | some col => col.docs ++ chunks
      | none => chunks
    let total := newDocs.length
    let sources :=
      sortStrings (distinctStr (chunks.map (fun ch => basename (ch.source.getD "?"))))
    let meta : Meta := ⟨total, sources, now⟩
    (st.setCollection c ⟨newDocs, some meta⟩, chunks.length)

/-- Retriever configuration handed to the external vector store
(src/rag/chain.py lines 49-52). -/
structure RetrieverCfg where
  searchType : String
  k : Nat
  fetchK : Nat
  deriving DecidableEq, Repr

/-- Chain construction (src/rag/chain.py lines 37-62): raises a
FileNotFoundError message when the collection directory does not exist,
otherwise wires the retriever with MMR search, k = TOP_K and
fetch_k = TOP_K * 3. -/
def _build_chain (cfg : Cfg) (st : FS) (collection : String) :
    Except String RetrieverCfg :=
  if (st.lookupCol collection).isSome then
    .ok ⟨"mmr", cfg.topK, cfg.topK * 3⟩
  else
    .error ("No index found for collection '" ++ collection ++ "'. Run 'index' first.")

/-- The streaming read loop of the query operation (src/rag/chain.py lines
77-81): fragments are appended to the accumulated response in order. -/
def consume (acc : String) : List String → String
  | [] => acc
  | f :: rest => consume (acc ++ f) rest

/-- Concatenation of a list of text fragments. -/
def joinStr (l : List String) : String := l.foldr (fun a b => a ++ b) ""

/-- Observable outcome of one interactive query: the returned answer string,
the generation error reported after partial output (if any), and whether a
missing collection was reported. -/
structure QueryOutcome where
  answer : String
  genFailure : Option String
  notFound : Bool
  deriving DecidableEq, Repr

/-- The query operation (src/rag/chain.py lines 65-99).  The external model
stream is modelled as the fragments it emits followed by an optional
mid-stream exception; a missing collection is caught and yields the empty
answer. -/
def queryOp (cfg : Cfg) (st : FS) (question : String) (collection : Option String)
    (stream : String → String → List String × Option String) : QueryOutcome :=
  let c := collection.getD cfg.collection
  match _build_chain cfg st c with
  | .error _ => ⟨"", none, true⟩
  | .ok _ =>
    let (frags, err) := stream cfg.llmModel question
    match err with
    | some e => ⟨consume "" frags, some e, false⟩
    | none => ⟨consume "" frags, none, false⟩

/-- The silent query used by the compare command (src/rag/chain.py lines
102-120).  The model override mutates the process-wide configuration; the
try/finally restores it on every exit path.  The external synchronous call is
the parameter gen (given the active model and the question); the two clock
readings around it are t0 and t1.  Returns the raised-or-returned outcome
together with the configuration as left behind by the call. -/
def run_silent (cfg : Cfg) (st : FS) (question : String)
    (collection : Option String) (model : Option String)
    (gen : String → String → Except String String) (t0 t1 : Int) :
    Except String (String × Int) × Cfg :=
  let c := collection.getD cfg.collection
  let original := cfg.llmModel
  let cfg1 :=
    match model with
    | some m => { cfg with llmModel := m }
    | none => cfg
  let body : Except String (String × Int) :=
    match _build_chain cfg1 st c with
    | .error e => .error e
    | .ok _ =>
      match gen cfg1.llmModel question with
      | .ok ans => .ok (ans, t1 - t0)
      | .error e => .error e
  (body, { cfg1 with llmModel := original })

/-- One row of the comparison result set (src/main.py lines 349-354).
Latency is modelled in integer clock units; the two-decimal rounding of the
float value is the identity in this model. -/
structure CompareRecord where
  question : String
  model : String
  answer : String
  latency : Int
  deriving DecidableEq, Repr

/-- Inner loop of the compare command over the model list (src/main.py lines
341-354): each invocation's exception is caught locally and recorded as an
error answer with latency 0. -/
def compareModels (st : FS) (q : String) (col : Option String)
    (gen : String → String → Except String String)
    (timings : String → String → Int × Int) :
    Cfg → List String → List CompareRecord × Cfg
  | cfg, [] => ([], cfg)
  | cfg, m :: ms =>
    let t := timings q m
    let r := run_silent cfg st q col (some m) gen t.1 t.2
    let record : CompareRecord :=
      match r.1 with
      | .ok (a, el) => ⟨q, m, a, el⟩
      | .error e => ⟨q, m, "ERROR: " ++ e, 0⟩
    let rest := compareModels st q col gen timings r.2 ms
    (record :: rest.1, rest.2)

/-- Outer loop of the compare command over the question list (src/main.py
lines 339-354), accumulating records in order. -/
def compareOp (st : FS) (col : Option String)
    (gen : String → String → Except String String)
    (timings : String → String → Int × Int) (models : List String) :
    Cfg → List String → List CompareRecord × Cfg
  | cfg, [] => ([], cfg)
  | cfg, q :: qs =>
    let r := compareModels st q col gen timings cfg models
    let rest := compareOp st col gen timings models r.2 qs
    (r.1 ++ rest.1, rest.2)

/-- Observable outcome of the clear command (src/main.py lines 156-193). -/
inductive ClearOutcome where
  | nothingToClear
  | notFound
  | deletedOne (name : String)
  | deletedAll
  | aborted
  deriving DecidableEq, Repr

/-- Process exit code of each clear outcome: typer.Exit(1) only on a missing
explicitly named collection. -/
def ClearOutcome.exitCode : ClearOutcome → Nat
  | .notFound => 1
  | _ => 0

/-- The clear command (src/main.py lines 156-193): nothing to do when the
index root is absent; an explicit name is removed alone or reported missing
with exit code 1; without a name, deleting everything is guarded by a
confirmation. -/
def clearOp (st : FS) (collection : Option String) (confirmAll : Bool) :
    FS × ClearOutcome :=
  if st.indexDirExists = false then (st, .nothingToClear)
  else
    match collection with
    | some c =>
      if (st.lookupCol c).isSome then
        (⟨true, st.collections.filter (fun p => p.1 != c)⟩, .deletedOne c)
      else (st, .notFound)
    | none =>
      if st.collections.isEmpty then (st, .nothingToClear)
      else if confirmAll then (FS.empty, .deletedAll)
      else (st, .aborted)

/-- Content written by the query command's output option, tagged by format
(src/main.py lines 223-241); serialization itself is external. -/
inductive SavedContent where
  | jsonFmt (question answer collection model : String)
  | mdFmt (question answer : String)
  | txtFmt (question answer : String)
  deriving DecidableEq, Repr

/-- Output path resolution (src/main.py lines 198-206): a bare filename is
placed inside the configured output directory. -/
def _resolve_output (cfg : Cfg) (p : String) : String :=
  let q := if p.startsWith "./" then p.drop 2 else p
  if basename q = q then cfg.outputDir ++ "/" ++ q else p

/-- Writing one question/answer pair (src/main.py lines 223-241), dispatching
on the resolved destination's extension. -/
def _save_output (cfg : Cfg) (path question answer : String) :
    String × SavedContent :=
  let dest := _resolve_output cfg path
  let s := lowerStr (suffixOf dest)
  if s = ".json" then (dest, .jsonFmt question answer cfg.collection cfg.llmModel)
  else if s = ".md" then (dest, .mdFmt question answer)
  else (dest, .txtFmt question answer)

/-- The non-interactive branch of the query command (src/main.py lines 48-85):
apply the model override, run the query, and save the answer only when both
an output path was given and the answer is non-empty.  Returns the query
outcome and the list of file writes performed. -/
def mainQuery (cfg : Cfg) (st : FS) (question : String)
    (collection : Option String) (model : Option String)
    (output : Option String)
    (stream : String → String → List String × Option String) :
    QueryOutcome × List (String × SavedContent) :=
  let cfg1 :=
    match model with
    | some m => { cfg with llmModel := m }
    | none => cfg
  let ans := queryOp cfg1 st question collection stream
  let writes :=
    match output with
    | some p => if ans.answer != "" then [_save_output cfg1 p question ans.answer] else []
    | none => []
  (ans, writes)

/-- A one-segment text file whose source path is docs/a.txt. -/
def fileA : SrcFile := ⟨".txt", some [⟨some "docs/a.txt", "alpha"⟩]⟩

/-- A one-segment text file whose source path is docs/b.txt. -/
def fileB : SrcFile := ⟨".txt", some [⟨some "docs/b.txt", "beta"⟩]⟩

/-- Store obtained by indexing fileA into collection c from scratch. -/
def stA : FS := (indexOp defaultCfg FS.empty (some "c") [fileA] id "t1").1

/-- Store holding an empty collection named default. -/
def stD : FS := FS.empty.setCollection "default" ⟨[], none⟩

/-- A stream that emits two fragments and then raises. -/
def streamW : String → String → List String × Option String :=
  fun _ _ => (["Hel", "lo"], some "boom")

/-- A directory listing with one unsupported file and one supported file whose
loader raises. -/
def badFiles : List SrcFile :=
  [⟨".xyz", some [⟨some "x", "t"⟩]⟩, ⟨".pdf", none⟩]

/-- A synchronous generation backend that fails for exactly one model. -/
def genW : String → String → Except String String :=
  fun m q => if m = "modelB" then .error "down" else .ok ("ans " ++ q)

/-- A clock pair with a positive elapsed interval for every invocation. -/
def timingsW : String → String → Int × Int := fun _ _ => (2, 5)

/-- The read loop accumulates exactly the concatenation of the fragments it
receives, in order. -/
theorem consume_eq_joinStr (l : List String) :
    ∀ acc : String, consume acc l = acc ++ joinStr l := by
  induction l with
  | nil => intro acc; simp [consume, joinStr]
  | cons f rest ih =>
      intro acc
      simp [consume, joinStr, ih (acc ++ f), String.append_assoc]

/-- Any successful silent run reports as latency the difference of the two
clock readings taken around the model invocation. -/
theorem run_silent_ok_latency (cfg : Cfg) (st : FS) (q : String)
    (col model : Option String) (gen : String → String → Except String String)
    (t0 t1 : Int) (a : String) (el : Int)
    (h : (run_silent cfg st q col model gen t0 t1).1 = .ok (a, el)) :
    el = t1 - t0 := by
  unfold run_silent at h
  simp only at h
  split at h
  · exact absurd h (by simp)
  · split at h
    · simp at h
      exact h.2.symm
    · exact absurd h (by simp)

/-- C1 counterexample: indexing docs/a.txt and then docs/b.txt into the same
collection leaves a metadata record whose sources list is exactly the current
call's filename b.txt and does not contain the earlier a.txt, refuting the
claim that the record covers all chunks ever indexed to date. -/
theorem c1_sources_counterexample :
    FS.metaSources (indexOp defaultCfg stA (some "c") [fileB] id "t2").1 "c"
        = ["b.txt"] ∧
    "a.txt" ∉ FS.metaSources (indexOp defaultCfg stA (some "c") [fileB] id "t2").1 "c" := by
  decide

/-- C1 (amended): after every index call that loads at least one segment, the
persisted metadata record's sources field equals the sorted distinct set of
source filenames of the chunks passed to that call only, regardless of what
the collection already contained. -/
theorem c1_sources_current_call (cfg : Cfg) (st : FS) (col : Option String)
    (files : List SrcFile) (split : List Doc → List Doc) (now : String)
    (h : load_documents files ≠ []) :
    FS.metaSources (indexOp cfg st col files split now).1 (col.getD cfg.collection)
      = sortStrings (distinctStr ((split (load_documents files)).map
          (fun ch => basename (ch.source.getD "?")))) := by
  unfold indexOp
  have hne : (load_documents files).isEmpty = false := by
    cases hd : load_documents files with
    | nil => exact absurd hd h
    | cons a l => rfl
  simp only [hne, Bool.false_eq_true, if_false]
  cases hl : st.lookupCol (col.getD cfg.collection) with
  | none =>
      simp [hl, FS.metaSources, FS.metaOf, FS.lookupCol, FS.setCollection, assocFind]
  | some colv =>
      simp [hl, FS.metaSources, FS.metaOf, FS.lookupCol, FS.setCollection, assocFind]

/-- C1 witness: the amended statement evaluated after a second index call into
an already populated collection. -/
theorem c1_sources_current_call_witness :
    FS.metaSources (indexOp defaultCfg stA (some "c") [fileB] id "t2").1
        ((some "c").getD defaultCfg.collection)
      = sortStrings (distinctStr ((id (load_documents [fileB])).map
          (fun ch => basename (ch.source.getD "?")))) :=
  c1_sources_current_call defaultCfg stA (some "c") [fileB] id "t2" (by decide)

/-- C2 counterexample: merging one further chunk into a collection that
already holds one chunk returns 1 from the index call but persists a chunks
field of 2, refuting the claim that the persisted count equals the return
value on merges. -/
theorem c2_chunkcount_counterexample :
    (indexOp defaultCfg stA (some "c") [fileB] id "t2").2 = 1 ∧
    FS.metaChunks (indexOp defaultCfg stA (some "c") [fileB] id "t2").1 "c" = some 2 ∧
    FS.metaChunks (indexOp defaultCfg stA (some "c") [fileB] id "t2").1 "c"
      ≠ some ((indexOp defaultCfg stA (some "c") [fileB] id "t2").2) := by
  decide

/-- C2 (amended): after every index call that loads at least one segment, the
persisted chunks field equals the number of vectors already stored before the
call plus the call's return value, and the return value is the number of
chunks produced by splitting the loaded segments; the two agree exactly when
the collection was freshly created. -/
theorem c2_chunkcount_amended (cfg : Cfg) (st : FS) (col : Option String)
    (files : List SrcFile) (split : List Doc → List Doc) (now : String)
    (h : load_documents files ≠ []) :
    FS.metaChunks (indexOp cfg st col files split now).1 (col.getD cfg.collection)
        = some (st.prevCount (col.getD cfg.collection)
            + (indexOp cfg st col files split now).2) ∧
    (indexOp cfg st col files split now).2 = (split (load_documents files)).length := by
  unfold indexOp
  have hne : (load_documents files).isEmpty = false := by
    cases hd : load_documents files with
    | nil => exact absurd hd h
    | cons a l => rfl
  simp only [hne, Bool.false_eq_true, if_false]
  cases hl : assocFind (col.getD cfg.collection) st.collections with
  | none =>
      simp [FS.lookupCol, hl, FS.metaChunks, FS.metaOf, FS.prevCount,
        FS.setCollection, assocFind]
  | some colv =>
      simp [FS.lookupCol, hl, FS.metaChunks, FS.metaOf, FS.prevCount,
        FS.setCollection, assocFind]

/-- C2 witness: the amended statement evaluated on a merge into a collection
that already holds one chunk. -/
theorem c2_chunkcount_amended_witness :
    FS.metaChunks (indexOp defaultCfg stA (some "c") [fileB] id "t2").1
        ((some "c").getD defaultCfg.collection)
      = some (stA.prevCount ((some "c").getD defaultCfg.collection)
          + (indexOp defaultCfg stA (some "c") [fileB] id "t2").2) ∧
    (indexOp defaultCfg stA (some "c") [fileB] id "t2").2
      = (id (load_documents [fileB])).length :=
  c2_chunkcount_amended defaultCfg stA (some "c") [fileB] id "t2" (by decide)

/-- C6: when zero document segments are loaded from the input, the index
operation returns 0 and leaves the persistent store — the collection
directories and the index root — exactly as it was. -/
theorem c6_empty_load_noop (cfg : Cfg) (st : FS) (col : Option String)
    (files : List SrcFile) (split : List Doc → List Doc) (now : String)
    (h : load_documents files = []) :
    indexOp cfg st col files split now = (st, 0) := by
  simp [indexOp, h]

/-- C6 witness: a directory holding only an unsupported file and a supported
file whose loader raises leads to a no-op index call on the empty store. -/
theorem c6_empty_load_noop_witness :
    indexOp defaultCfg FS.empty (some "c") badFiles id "t" = (FS.empty, 0) :=
  c6_empty_load_noop defaultCfg FS.empty (some "c") badFiles id "t" (by decide)

/-- C3: every silent run with a model override leaves the process-wide model
configuration equal to its value before the call, on every exit path — normal
return, missing collection, or a generation error. -/
theorem c3_model_restored (cfg : Cfg) (st : FS) (question : String)
    (col : Option String) (m : String)
    (gen : String → String → Except String String) (t0 t1 : Int) :
    (run_silent cfg st question col (some m) gen t0 t1).2.llmModel
      = cfg.llmModel := rfl

/-- C4: when the model stream raises after emitting some fragments, the query
operation reports the failure and returns exactly the concatenation of the
fragments received before the error, retracting nothing. -/
theorem c4_partial_stream_kept (cfg : Cfg) (st : FS) (question : String)
    (col : Option String)
    (stream : String → String → List String × Option String)
    (frags : List String) (e : String)
    (hcol : (st.lookupCol (col.getD cfg.collection)).isSome = true)
    (hstream : stream cfg.llmModel question = (frags, some e)) :
    queryOp cfg st question col stream = ⟨joinStr frags, some e, false⟩ := by
  unfold queryOp _build_chain
  simp only [hcol, if_true, hstream]
  simp [consume_eq_joinStr]

/-- C4 witness: a stream that emits two fragments and then raises yields the
two fragments joined, with the failure reported. -/
theorem c4_partial_stream_kept_witness :
    queryOp defaultCfg stD "hi" none streamW
      = ⟨joinStr ["Hel", "lo"], some "boom", false⟩ :=
  c4_partial_stream_kept defaultCfg stD "hi" none streamW ["Hel", "lo"] "boom"
    (by decide) rfl

/-- C5: when no persisted index exists for the requested collection, chain
construction fails with the collection-not-found message and the query
operation returns the empty answer after reporting the condition, rather than
propagating the exception. -/
theorem c5_missing_collection_empty_answer (cfg : Cfg) (st : FS)
    (question : String) (col : Option String)
    (stream : String → String → List String × Option String)
    (h : st.lookupCol (col.getD cfg.collection) = none) :
    _build_chain cfg st (col.getD cfg.collection)
        = .error ("No index found for collection '" ++ col.getD cfg.collection
            ++ "'. Run 'index' first.") ∧
    queryOp cfg st question col stream = ⟨"", none, true⟩ := by
  constructor
  · unfold _build_chain
    simp [h]
  · unfold queryOp _build_chain
    simp [h]

/-- C5 witness: querying a never-indexed collection on the empty store. -/
theorem c5_missing_collection_empty_answer_witness :
    _build_chain defaultCfg FS.empty ((some "nope").getD defaultCfg.collection)
        = .error ("No index found for collection '"
            ++ (some "nope").getD defaultCfg.collection
            ++ "'. Run 'index' first.") ∧
    queryOp defaultCfg FS.empty "hi" (some "nope") streamW = ⟨"", none, true⟩ :=
  c5_missing_collection_empty_answer defaultCfg FS.empty "hi" (some "nope")
    streamW (by decide)

/-- C9: every successfully built chain configures the retriever with the MMR
search strategy, k equal to the configured top-k constant whose default value
is 5, and fetch_k equal to exactly three times k. -/
theorem c9_retriever_mmr (cfg : Cfg) (st : FS) (c : String) (r : RetrieverCfg)
    (h : _build_chain cfg st c = .ok r) :
    r.searchType = "mmr" ∧ r.k = cfg.topK ∧ r.fetchK = 3 * r.k
      ∧ defaultCfg.topK = 5 := by
  unfold _build_chain at h
  split at h
  · cases h
    exact ⟨rfl, rfl, Nat.mul_comm cfg.topK 3, rfl⟩
  · exact absurd h (by simp)

/-- C9 witness: the retriever configuration built over a one-collection store
under the default configuration. -/
theorem c9_retriever_mmr_witness :
    (⟨"mmr", 5, 15⟩ : RetrieverCfg).searchType = "mmr"
      ∧ (⟨"mmr", 5, 15⟩ : RetrieverCfg).k = defaultCfg.topK
      ∧ (⟨"mmr", 5, 15⟩ : RetrieverCfg).fetchK = 3 * (⟨"mmr", 5, 15⟩ : RetrieverCfg).k
      ∧ defaultCfg.topK = 5 :=
  c9_retriever_mmr defaultCfg stA "c" ⟨"mmr", 5, 15⟩ rfl

/-- C10: in the query command, an output file is written only when the answer
string is non-empty: whenever the query yields an empty answer — in
particular on a missing collection — no file write is performed at all. -/
theorem c10_no_write_on_empty_answer (cfg : Cfg) (st : FS) (question : String)
    (col model output : Option String)
    (stream : String → String → List String × Option String)
    (h : (mainQuery cfg st question col model output stream).1.answer = "") :
    (mainQuery cfg st question col model output stream).2 = [] := by
  cases model with
  | none =>
      unfold mainQuery at h ⊢
      cases output with
      | none => rfl
      | some p =>
          have h' : (queryOp cfg st question col stream).answer = "" := h
          simp [h']
  | some m =>
      unfold mainQuery at h ⊢
      cases output with
      | none => rfl
      | some p =>
          have h' : (queryOp { cfg with llmModel := m } st question col stream).answer
              = "" := h
          simp [h']

/-- C10 witness: a query against the empty store with an output path yields an
empty answer and performs no write. -/
theorem c10_no_write_on_empty_answer_witness :
    (mainQuery defaultCfg FS.empty "q" none none (some "o.txt") streamW).2 = [] :=
  c10_no_write_on_empty_answer defaultCfg FS.empty "q" none none (some "o.txt")
    streamW (by decide)

/-- Any successful silent run reports a non-negative latency whenever the
clock readings around the invocation are monotone. -/
theorem run_silent_latency_nonneg (cfg : Cfg) (st : FS) (q : String)
    (col model : Option String) (gen : String → String → Except String String)
    (t0 t1 : Int) (hT : t0 ≤ t1) (a : String) (el : Int)
    (h : (run_silent cfg st q col model gen t0 t1).1 = .ok (a, el)) :
    0 ≤ el := by
  rw [run_silent_ok_latency cfg st q col model gen t0 t1 a el h]
  omega

/-- The inner compare loop produces one record per model in order, each still
carrying the question and a non-negative latency, whatever each invocation
returns or raises. -/
theorem compareModels_spec (st : FS) (q : String) (col : Option String)
    (gen : String → String → Except String String)
    (timings : String → String → Int × Int)
    (ht : ∀ a b, (timings a b).1 ≤ (timings a b).2) :
    ∀ (ms : List String) (cfg : Cfg),
      ((compareModels st q col gen timings cfg ms).1.map
          (fun r => (r.question, r.model)) = ms.map (fun m => (q, m))) ∧
      (compareModels st q col gen timings cfg ms).1.length = ms.length ∧
      (compareModels st q col gen timings cfg ms).1.all
          (fun r => decide (0 ≤ r.latency)) = true := by
  intro ms
  induction ms with
  | nil => intro cfg; simp [compareModels]
  | cons m ms ih =>
      intro cfg
      cases hr : (run_silent cfg st q col (some m) gen (timings q m).1
          (timings q m).2).1 with
      | ok p =>
          obtain ⟨a, el⟩ := p
          have hel : decide (0 ≤ el) = true :=
            decide_eq_true
              (run_silent_latency_nonneg cfg st q col (some m) gen
                (timings q m).1 (timings q m).2 (ht q m) a el hr)
          simp [compareModels, hr, ih, hel]
      | error e =>
          simp [compareModels, hr, ih]

/-- The compare command produces, for every question in order, one record per
model in order, hence one record per question/model pair, all with
non-negative latencies. -/
theorem compareOp_spec (st : FS) (col : Option String)
    (gen : String → String → Except String String)
    (timings : String → String → Int × Int)
    (ht : ∀ a b, (timings a b).1 ≤ (timings a b).2) :
    ∀ (questions models : List String) (cfg : Cfg),
      ((compareOp st col gen timings models cfg questions).1.map
          (fun r => (r.question, r.model))
        = questions.flatMap (fun q => models.map (fun m => (q, m)))) ∧
      (compareOp st col gen timings models cfg questions).1.length
        = questions.length * models.length ∧
      (compareOp st col gen timings models cfg questions).1.all
          (fun r => decide (0 ≤ r.latency)) = true := by
  intro questions
  induction questions with
  | nil => intro models cfg; simp [compareOp]
  | cons qq qs ih =>
      intro models cfg
      have hm := compareModels_spec st qq col gen timings ht models cfg
      have hrest := ih models
          (compareModels st qq col gen timings cfg models).2
      refine ⟨?_, ?_, ?_⟩
      · simp [compareOp, hm.1, hrest.1]
      · simp only [compareOp, List.length_append, hm.2.1, hrest.2.1,
          List.length_cons]
        rw [Nat.succ_mul]
        omega
      · simp [compareOp, List.all_append, hm.2.2, hrest.2.2]

/-- C7: for non-empty question and model lists, the compare command yields
exactly one record per question/model pair — question count times model count
records, in order — each with a non-negative latency; an invocation failure
is caught locally and the remaining invocations still produce their
records. -/
theorem c7_compare_records (cfg : Cfg) (st : FS) (col : Option String)
    (gen : String → String → Except String String)
    (timings : String → String → Int × Int)
    (questions models : List String)
    (_hq : questions ≠ []) (_hm : models ≠ [])
    (ht : ∀ a b, (timings a b).1 ≤ (timings a b).2) :
    ((compareOp st col gen timings models cfg questions).1.map
        (fun r => (r.question, r.model))
      = questions.flatMap (fun q => models.map (fun m => (q, m)))) ∧
    (compareOp st col gen timings models cfg questions).1.length
      = questions.length * models.length ∧
    (compareOp st col gen timings models cfg questions).1.all
        (fun r => decide (0 ≤ r.latency)) = true :=
  compareOp_spec st col gen timings ht questions models cfg

/-- C7 witness: one question against two models, the second of which fails,
still yields two records with non-negative latencies. -/
theorem c7_compare_records_witness :
    ((compareOp stA (some "c") genW timingsW ["modelA", "modelB"] defaultCfg
        ["What is X?"]).1.map (fun r => (r.question, r.model))
      = ["What is X?"].flatMap
          (fun q => ["modelA", "modelB"].map (fun m => (q, m)))) ∧
    (compareOp stA (some "c") genW timingsW ["modelA", "modelB"] defaultCfg
        ["What is X?"]).1.length
      = (["What is X?"] : List String).length
          * (["modelA", "modelB"] : List String).length ∧
    (compareOp stA (some "c") genW timingsW ["modelA", "modelB"] defaultCfg
        ["What is X?"]).1.all (fun r => decide (0 ≤ r.latency)) = true :=
  c7_compare_records defaultCfg stA (some "c") genW timingsW ["What is X?"]
    ["modelA", "modelB"] (by decide) (by decide)
    (fun a b => by show (2 : Int) ≤ 5; decide)

/-- C8 counterexample: when the index root directory does not exist, deleting
the explicitly named, nonexistent collection ghost reports nothing to clear
and exits with code 0, refuting the claimed collection-not-found failure with
exit code 1. -/
theorem c8_clear_counterexample :
    clearOp FS.empty (some "ghost") false
        = (FS.empty, ClearOutcome.nothingToClear) ∧
    (clearOp FS.empty (some "ghost") false).2 ≠ ClearOutcome.notFound ∧
    ClearOutcome.exitCode (clearOp FS.empty (some "ghost") false).2 = 0 := by
  decide

/-- C8 (amended): provided the index root directory exists, deleting an
explicitly named collection that does not exist fails with the
collection-not-found outcome and exit code 1 leaving the store unchanged,
while deleting an existing one removes exactly that collection's directory
and exits with code 0; when the root does not exist the command instead
reports nothing to clear and exits with code 0. -/
theorem c8_clear_amended (st : FS) (c : String) (b : Bool)
    (hroot : st.indexDirExists = true) :
    clearOp st (some c) b
        = (if (st.lookupCol c).isSome then
            (⟨true, st.collections.filter (fun p => p.1 != c)⟩,
              ClearOutcome.deletedOne c)
          else (st, ClearOutcome.notFound)) ∧
    (clearOp st (some c) b).2.exitCode
      = (if (st.lookupCol c).isSome then 0 else 1) := by
  unfold clearOp
  cases h : (st.lookupCol c).isSome <;>
    simp [hroot, h, ClearOutcome.exitCode]

/-- C8 witness: on a store whose root exists and holds only collection c,
deleting the missing name ghost hits the not-found branch with exit code 1
and leaves the store unchanged. -/
theorem c8_clear_amended_witness :
    clearOp stA (some "ghost") false
        = (if (stA.lookupCol "ghost").isSome then
            (⟨true, stA.collections.filter (fun p => p.1 != "ghost")⟩,
              ClearOutcome.deletedOne "ghost")
          else (stA, ClearOutcome.notFound)) ∧
    (clearOp stA (some "ghost") false).2.exitCode
      = (if (stA.lookupCol "ghost").isSome then 0 else 1) :=
  c8_clear_amended stA "ghost" false (by decide)

end RagCli
